import Mathlib

/-!
Shallow embedding of the websim-2api proxy (BunnHack/websim-2api).

The repository contains three variants of the same Deno HTTP proxy:
 * `src/main.ts`        — embedded below in namespace `Main` (chat + image routes,
                          auth checked in the top-level handler, no streaming);
 * `src/unnamed/part_000` ("v2 - with CORS and Streaming support") — namespace `V2`
                          (chat route with SSE stream emulation, CORS on every
                          response, auth checked inside the chat handler);
 * `src/unnamed/part_001` — namespace `V1` (basic chat route, auth inside the
                          chat handler, CORS only on the success response).

JavaScript values that the handlers build with object literals and
`JSON.stringify` are embedded as the `Json` inductive together with a renderer
that matches `JSON.stringify`'s output (no whitespace, insertion-ordered keys,
standard string escaping).  `Date.now()` is modelled by a `now : Nat` parameter
(the unix-seconds clock value during the request) and `crypto.randomUUID()` by a
`uuid : String` parameter.  The upstream `fetch` is modelled by passing in the
`UpstreamResponse` the upstream would produce, and each handler result records
whether the `fetch` was actually performed and with which JSON payload, and
whether `req.json()` was ever attempted.
-/

/-- JSON values as produced by the JavaScript object literals in the source. -/
inductive Json where
  | null
  | bool (b : Bool)
  | num (n : Nat)
  | str (s : String)
  | arr (elems : List Json)
  | obj (fields : List (String × Json))

/-- One hexadecimal digit, lowercase, as emitted by `JSON.stringify` escapes. -/
def hexDigit (n : Nat) : Char :=
  if n < 10 then Char.ofNat (48 + n) else Char.ofNat (87 + n)

/-- `JSON.stringify` escaping of a single character. -/
def escapeJsonChar (c : Char) : String :=
  if c = '"' then "\\\""
  else if c = '\\' then "\\\\"
  else if c = '\x08' then "\\b"
  else if c = '\x09' then "\\t"
  else if c = '\x0a' then "\\n"
  else if c = '\x0c' then "\\f"
  else if c = '\x0d' then "\\r"
  else if c.toNat < 32 then
    "\\u00" ++ String.singleton (hexDigit (c.toNat / 16))
            ++ String.singleton (hexDigit (c.toNat % 16))
  else String.singleton c

/-- `JSON.stringify` escaping of a string body (without the surrounding quotes). -/
def escapeJson (s : String) : String :=
  String.join (s.data.map escapeJsonChar)

mutual

/-- Rendering of a `Json` value exactly as `JSON.stringify` prints it:
no whitespace, object keys in insertion order. -/
def Json.render : Json → String
  | .null => "null"
  | .bool b => if b then "true" else "false"
  | .num n => toString n
  | .str s => "\"" ++ escapeJson s ++ "\""
  | .arr xs => "[" ++ Json.renderList xs ++ "]"
  | .obj fs => "\x7b" ++ Json.renderFields fs ++ "\x7d"

/-- Comma-separated rendering of array elements. -/
def Json.renderList : List Json → String
  | [] => ""
  | [x] => x.render
  | x :: y :: xs => x.render ++ "," ++ Json.renderList (y :: xs)

/-- Comma-separated rendering of object fields. -/
def Json.renderFields : List (String × Json) → String
  | [] => ""
  | [(k, v)] => "\"" ++ escapeJson k ++ "\":" ++ v.render
  | (k, v) :: f :: fs =>
      "\"" ++ escapeJson k ++ "\":" ++ v.render ++ "," ++ Json.renderFields (f :: fs)

end

/-- Field lookup in a JSON object (JS property access on a parsed object). -/
def Json.getField : Json → String → Option Json
  | .obj fs, k => fs.lookup k
  | _, _ => none

/-- The WHATWG whitespace set stripped by JavaScript `String.prototype.trim`. -/
def isJsWhitespace (c : Char) : Bool :=
  let n := c.toNat
  n = 9 || n = 10 || n = 11 || n = 12 || n = 13 || n = 32 || n = 160 || n = 5760 ||
  (8192 ≤ n && n ≤ 8202) || n = 8232 || n = 8233 || n = 8239 || n = 8287 ||
  n = 12288 || n = 65279

/-- JavaScript `String.prototype.trim`: strip leading and trailing whitespace. -/
def jsTrim (s : String) : String :=
  String.mk (((s.data.dropWhile isJsWhitespace).reverse.dropWhile isJsWhitespace).reverse)

/-- Parsed inbound JSON request body.  Fields the handlers read from the parsed
`openaiRequest` object: `model`, `messages` (forwarded verbatim, hence kept as a
raw `Json` value), `stream` (`=== true` test), `prompt` and `size` (image
route; absent properties are `Option.none` = JS `undefined`). -/
structure ReqJson where
  model : String
  messages : Json
  stream : Option Bool
  prompt : Option String
  size : Option String

/-- An inbound HTTP request as the handlers observe it: method, URL pathname,
the `Authorization` header (`none` = header absent), and the JSON body
(`none` = the body does not parse as JSON, so `req.json()` throws). -/
structure Request where
  method : String
  path : String
  authHeader : Option String
  body : Option ReqJson

/-- The JSON object an upstream 2xx reply parses to: the handlers read the
`content` (chat) or `url` (image) property; absence is JS `undefined`. -/
structure UpstreamJson where
  content : Option String
  url : Option String
  deriving Repr, DecidableEq

/-- Body of the upstream reply: a parsed JSON object, or a body on which
`apiResponse.json()` throws. -/
inductive UpstreamBody where
  | json (j : UpstreamJson)
  | notJson
  deriving Repr, DecidableEq

/-- The reply the upstream `fetch` would resolve to. -/
structure UpstreamResponse where
  status : Nat
  statusText : String
  body : UpstreamBody
  deriving Repr, DecidableEq

/-- `Response.ok`: status in the inclusive range 200–299. -/
def UpstreamResponse.ok (r : UpstreamResponse) : Bool :=
  200 ≤ r.status && r.status < 300

/-- Body of an outbound response.  `json j` stands for the string
`JSON.stringify` would print (`j.render`); `sse` is the emulated SSE
`ReadableStream`, as the ordered list of enqueued frames plus whether the
controller was closed at the end of `start`. -/
inductive ResponseBody where
  | empty
  | text (s : String)
  | json (j : Json)
  | sse (frames : List String) (closed : Bool)

/-- An outbound HTTP response. -/
structure HttpResponse where
  status : Nat
  headers : List (String × String)
  body : ResponseBody

/-- Header lookup on an outbound response. -/
def HttpResponse.getHeader (r : HttpResponse) (k : String) : Option String :=
  (r.headers.find? (fun p => p.1 == k)).map (·.2)

/-- Result of running a handler on one request: the response, plus
instrumentation recording whether `req.json()` was attempted, whether the
upstream `fetch` was performed, and if so with which JSON payload. -/
structure HandlerResult where
  response : HttpResponse
  bodyParsed : Bool
  upstreamCalled : Bool
  upstreamPayload : Option Json

/-- The CORS preflight headers every variant answers `OPTIONS` with. -/
def corsPreflightHeaders : List (String × String) :=
  [("Access-Control-Allow-Origin", "*"),
   ("Access-Control-Allow-Methods", "GET, POST, OPTIONS"),
   ("Access-Control-Allow-Headers", "Content-Type, Authorization")]

/-- The auth test shared by all variants:
`if (AUTHORIZATION_KEY) { if (!authHeader || authHeader !== "Bearer " + KEY) … }`.
`apiKey = some key` models a configured (truthy, i.e. non-empty) `API_KEY`. -/
def authorized (apiKey : Option String) (authHeader : Option String) : Bool :=
  match apiKey with
  | none => true
  | some key =>
    match authHeader with
    | none => false
    | some h => h == "Bearer " ++ key

/-- One entry of the `/v1/models` listing:
`{id, object: "model", created: Math.floor(Date.now()/1000), owned_by: "user"}`. -/
def modelEntry (now : Nat) (modelId : String) : Json :=
  .obj [("id", .str modelId), ("object", .str "model"),
        ("created", .num now), ("owned_by", .str "user")]

namespace Main

/-! Embedding of `src/main.ts` (chat + image routes, no streaming). -/

def WEBSIM_CHAT_API_URL : String :=
  "https://websim.com/api/v1/inference/run_chat_completion"

def WEBSIM_IMAGE_API_URL : String :=
  "https://websim.com/api/v1/inference/run_image_generation"

/-- Environment-derived configuration: the two project ids (with their literal
fallbacks applied) and the optional `API_KEY`. -/
structure Config where
  chatProjectId : String
  imageProjectId : String
  apiKey : Option String

/-- Modality tag of a registry entry. -/
inductive ModelType where
  | chat
  | image
  deriving Repr, DecidableEq

/-- One value of `MODEL_MAPPING`: `{type, projectId, apiUrl}`. -/
structure ModelConfig where
  type : ModelType
  projectId : String
  apiUrl : String
  deriving Repr, DecidableEq

/-- `Object.keys(MODEL_MAPPING)`, in declaration order. -/
def modelKeys : List String := ["websim-chat", "websim-image"]

/-- `MODEL_MAPPING[model]`: the property lookup on the literal object. -/
def MODEL_MAPPING (cfg : Config) (model : String) : Option ModelConfig :=
  if model = "websim-chat" then
    some ⟨.chat, cfg.chatProjectId, WEBSIM_CHAT_API_URL⟩
  else if model = "websim-image" then
    some ⟨.image, cfg.imageProjectId, WEBSIM_IMAGE_API_URL⟩
  else
    none

/-- `error.message || "Internal Server Error"` (JS `||`: empty string is falsy). -/
def errMessage (m : String) : String :=
  if m = "" then "Internal Server Error" else m

/-- The catch-branch response of both handlers:
`new Response(JSON.stringify({error: …}), {status: 500})` — note: no headers. -/
def err500 (m : String) : HttpResponse :=
  ⟨500, [], .json (.obj [("error", .str (errMessage m))])⟩

/-- Message of the `SyntaxError` thrown by `req.json()` / `apiResponse.json()`
on a non-JSON body (the engine-specific wording is abstracted by this constant). -/
def jsonParseErrorMsg : String := "Unexpected end of JSON input"

/-- Message of the `TypeError` thrown by `websimResponse.content.trim()` when
`content` is `undefined` (V8 wording). -/
def trimOfUndefinedMsg : String :=
  "Cannot read properties of undefined (reading 'trim')"

/-- `handleModels()`: list every key of `MODEL_MAPPING`. -/
def handleModels (now : Nat) : HttpResponse :=
  ⟨200, [("Content-Type", "application/json")],
   .json (.obj [("object", .str "list"),
                ("data", .arr (modelKeys.map (modelEntry now)))])⟩

/-- The 200 chat-completion object built on upstream success. -/
def chatSuccessJson (uuid : String) (now : Nat) (model content : String) : Json :=
  .obj [("id", .str ("chatcmpl-" ++ uuid)),
        ("object", .str "chat.completion"),
        ("created", .num now),
        ("model", .str model),
        ("choices", .arr [.obj [("index", .num 0),
                                ("message", .obj [("role", .str "assistant"),
                                                  ("content", .str content)]),
                                ("finish_reason", .str "stop")]]),
        ("usage", .obj [("prompt_tokens", .null),
                        ("completion_tokens", .null),
                        ("total_tokens", .null)])]

/-- `handleChatCompletions(req)`: the whole body runs inside one `try`, whose
`catch` produces `err500 error.message`. -/
def handleChatCompletions (cfg : Config) (req : Request)
    (upstream : UpstreamResponse) (now : Nat) (uuid : String) : HandlerResult :=
  match req.body with
  | none =>
    -- `await req.json()` throws; caught by the surrounding catch.
    ⟨err500 jsonParseErrorMsg, true, false, none⟩
  | some r =>
    match MODEL_MAPPING cfg r.model with
    | some mc =>
      if mc.type = .chat then
        let websimPayload : Json :=
          .obj [("project_id", .str mc.projectId), ("messages", r.messages)]
        if upstream.ok then
          match upstream.body with
          | .notJson =>
            -- `await apiResponse.json()` throws.
            ⟨err500 jsonParseErrorMsg, true, true, some websimPayload⟩
          | .json uj =>
            match uj.content with
            | none =>
              -- `websimResponse.content.trim()` throws a TypeError.
              ⟨err500 trimOfUndefinedMsg, true, true, some websimPayload⟩
            | some s =>
              ⟨⟨200, [("Content-Type", "application/json"),
                      ("Access-Control-Allow-Origin", "*")],
                .json (chatSuccessJson uuid now r.model (jsTrim s))⟩,
               true, true, some websimPayload⟩
        else
          -- `throw new Error("Upstream API error: " + status)`, then caught.
          ⟨err500 ("Upstream API error: " ++ toString upstream.status),
           true, true, some websimPayload⟩
      else
        ⟨⟨404, [], .json (.obj [("error",
            .str ("Chat model not found: " ++ r.model))])⟩, true, false, none⟩
    | none =>
      ⟨⟨404, [], .json (.obj [("error",
          .str ("Chat model not found: " ++ r.model))])⟩, true, false, none⟩

/-- The `switch (openaiRequest.size)` mapping a size string to an aspect ratio;
`none` (absent `size`) falls into the `default` branch. -/
def aspectRatioOf (size : Option String) : String :=
  match size with
  | some "1792x1024" => "16:9"
  | some "1024x1792" => "9:16"
  | _ => "1:1"

/-- The upstream image payload `{project_id, prompt, aspect_ratio}`.
`JSON.stringify` drops a property whose value is `undefined`, so an absent
`prompt` leaves no `prompt` key. -/
def imagePayload (projectId : String) (prompt : Option String)
    (size : Option String) : Json :=
  .obj ([("project_id", Json.str projectId)]
        ++ (match prompt with
            | some p => [("prompt", Json.str p)]
            | none => [])
        ++ [("aspect_ratio", Json.str (aspectRatioOf size))])

/-- `handleImageGeneration(req)`: same try/catch structure as the chat handler. -/
def handleImageGeneration (cfg : Config) (req : Request)
    (upstream : UpstreamResponse) (now : Nat) : HandlerResult :=
  match req.body with
  | none =>
    ⟨err500 jsonParseErrorMsg, true, false, none⟩
  | some r =>
    match MODEL_MAPPING cfg r.model with
    | some mc =>
      if mc.type = .image then
        let websimPayload := imagePayload mc.projectId r.prompt r.size
        if upstream.ok then
          match upstream.body with
          | .notJson =>
            ⟨err500 jsonParseErrorMsg, true, true, some websimPayload⟩
          | .json uj =>
            ⟨⟨200, [("Content-Type", "application/json"),
                    ("Access-Control-Allow-Origin", "*")],
              .json (.obj [("created", .num now),
                           ("data", .arr [.obj (match uj.url with
                               | some u => [("url", Json.str u)]
                               | none => [])])])⟩,
             true, true, some websimPayload⟩
        else
          ⟨err500 ("Upstream API error: " ++ toString upstream.status),
           true, true, some websimPayload⟩
      else
        ⟨⟨404, [], .json (.obj [("error",
            .str ("Image model not found: " ++ r.model))])⟩, true, false, none⟩
    | none =>
      ⟨⟨404, [], .json (.obj [("error",
          .str ("Image model not found: " ++ r.model))])⟩, true, false, none⟩

/-- The top-level `handler(req)`: OPTIONS preflight, then the auth gate, then
routing on the pathname. -/
def handler (cfg : Config) (req : Request) (upstream : UpstreamResponse)
    (now : Nat) (uuid : String) : HandlerResult :=
  if req.method = "OPTIONS" then
    ⟨⟨204, corsPreflightHeaders, .empty⟩, false, false, none⟩
  else if authorized cfg.apiKey req.authHeader then
    if req.path = "/v1/models" then
      ⟨handleModels now, false, false, none⟩
    else if req.path = "/v1/chat/completions" then
      handleChatCompletions cfg req upstream now uuid
    else if req.path = "/v1/images/generations" then
      handleImageGeneration cfg req upstream now
    else
      ⟨⟨404, [], .text "Not Found"⟩, false, false, none⟩
  else
    ⟨⟨401, [("Content-Type", "application/json")],
      .json (.obj [("error", .str "Unauthorized")])⟩, false, false, none⟩

end Main

/-- Outcome of a handler call seen from its caller: a returned response, or an
exception that escaped to the caller's `catch`. -/
inductive HOutcome where
  | ok (r : HttpResponse)
  | thrown (msg : String)

/-- A handler outcome together with the instrumentation flags. -/
structure StepResult where
  outcome : HOutcome
  bodyParsed : Bool
  upstreamCalled : Bool
  upstreamPayload : Option Json

namespace V2

/-! Embedding of `src/unnamed/part_000` ("v2 - with CORS and Streaming support"). -/

def WEBSIM_API_URL : String :=
  "https://websim.com/api/v1/inference/run_chat_completion"

/-- Environment-derived configuration: `WEBSIM_PROJECT_ID` (fallback applied)
and the optional `API_KEY`. -/
structure Config where
  projectId : String
  apiKey : Option String

/-- `Object.keys(MODEL_MAPPING)`. -/
def modelKeys : List String := ["websim-chat"]

/-- `MODEL_MAPPING[modelId]`: maps the public id directly to the project id. -/
def MODEL_MAPPING (cfg : Config) (modelId : String) : Option String :=
  if modelId = "websim-chat" then some cfg.projectId else none

/-- The shared `corsHeaders` object built in `handler`. -/
def corsHeaders : List (String × String) := [("Access-Control-Allow-Origin", "*")]

/-- `handleModels(corsHeaders)`. -/
def handleModels (now : Nat) : HttpResponse :=
  ⟨200, corsHeaders ++ [("Content-Type", "application/json")],
   .json (.obj [("object", .str "list"),
                ("data", .arr (modelKeys.map (modelEntry now)))])⟩

/-- The first emulated SSE chunk: the whole content in one `delta`. -/
def streamChunk (chunkId : String) (now : Nat) (model content : String) : Json :=
  .obj [("id", .str chunkId),
        ("object", .str "chat.completion.chunk"),
        ("created", .num now),
        ("model", .str model),
        ("choices", .arr [.obj [("index", .num 0),
                                ("delta", .obj [("content", .str content)]),
                                ("finish_reason", .null)]])]

/-- The terminal emulated SSE chunk: empty `delta`, `finish_reason: "stop"`. -/
def finalChunk (chunkId : String) (now : Nat) (model : String) : Json :=
  .obj [("id", .str chunkId),
        ("object", .str "chat.completion.chunk"),
        ("created", .num now),
        ("model", .str model),
        ("choices", .arr [.obj [("index", .num 0),
                                ("delta", .obj []),
                                ("finish_reason", .str "stop")]])]

/-- The three frames enqueued on the emulated stream, in order. -/
def sseFrames (chunkId : String) (now : Nat) (model content : String) : List String :=
  ["data: " ++ (streamChunk chunkId now model content).render ++ "\n\n",
   "data: " ++ (finalChunk chunkId now model).render ++ "\n\n",
   "data: [DONE]\n\n"]

/-- The non-streaming 200 chat-completion object. -/
def chatSuccessJson (uuid : String) (now : Nat) (model content : String) : Json :=
  .obj [("id", .str ("chatcmpl-" ++ uuid)),
        ("object", .str "chat.completion"),
        ("created", .num now),
        ("model", .str model),
        ("choices", .arr [.obj [("index", .num 0),
                                ("message", .obj [("role", .str "assistant"),
                                                  ("content", .str content)]),
                                ("finish_reason", .str "stop")]]),
        ("usage", .obj [("prompt_tokens", .null),
                        ("completion_tokens", .null),
                        ("total_tokens", .null)])]

/-- Message of the `SyntaxError` from `apiResponse.json()` on a non-JSON body
(engine wording abstracted). -/
def jsonParseFailure : String := "Unexpected end of JSON input"

/-- `handleChatCompletions(req, corsHeaders)`.  The only statement that can
throw past this function is `await apiResponse.json()` on a non-JSON upstream
body (`HOutcome.thrown`), which `handler`'s `catch` turns into a 500. -/
def handleChatCompletions (cfg : Config) (req : Request)
    (upstream : UpstreamResponse) (now : Nat) (uuid : String) : StepResult :=
  if authorized cfg.apiKey req.authHeader then
    match req.body with
    | none =>
      ⟨.ok ⟨400, corsHeaders, .text "Invalid JSON body"⟩, true, false, none⟩
    | some r =>
      match MODEL_MAPPING cfg r.model with
      | none =>
        ⟨.ok ⟨404, corsHeaders ++ [("Content-Type", "application/json")],
              .json (.obj [("error", .str ("Model not found: " ++ r.model))])⟩,
         true, false, none⟩
      | some projectId =>
        let websimPayload : Json :=
          .obj [("project_id", .str projectId), ("messages", r.messages)]
        if upstream.ok then
          match upstream.body with
          | .notJson =>
            ⟨.thrown jsonParseFailure, true, true, some websimPayload⟩
          | .json uj =>
            -- `const content = websimResponse.content?.trim() ?? "";`
            let content := match uj.content with
                           | some s => jsTrim s
                           | none => ""
            if r.stream = some true then
              let chunkId := "chatcmpl-" ++ uuid
              ⟨.ok ⟨200,
                    corsHeaders ++
                      [("Content-Type", "text/event-stream"),
                       ("Cache-Control", "no-cache"),
                       ("Connection", "keep-alive")],
                    .sse (sseFrames chunkId now r.model content) true⟩,
               true, true, some websimPayload⟩
            else
              ⟨.ok ⟨200, corsHeaders ++ [("Content-Type", "application/json")],
                    .json (chatSuccessJson uuid now r.model content)⟩,
               true, true, some websimPayload⟩
        else
          ⟨.ok ⟨upstream.status, corsHeaders,
                .text ("Upstream API error: " ++ upstream.statusText)⟩,
           true, true, some websimPayload⟩
  else
    ⟨.ok ⟨401, corsHeaders, .text "Unauthorized"⟩, false, false, none⟩

/-- The top-level `handler(req)`: OPTIONS preflight first, then routing inside
a `try` whose `catch` yields the 500 JSON error with CORS headers. -/
def handler (cfg : Config) (req : Request) (upstream : UpstreamResponse)
    (now : Nat) (uuid : String) : HandlerResult :=
  if req.method = "OPTIONS" then
    ⟨⟨204, corsPreflightHeaders, .empty⟩, false, false, none⟩
  else if req.path = "/v1/models" then
    ⟨handleModels now, false, false, none⟩
  else if req.path = "/v1/chat/completions" then
    let step := handleChatCompletions cfg req upstream now uuid
    match step.outcome with
    | .ok r => ⟨r, step.bodyParsed, step.upstreamCalled, step.upstreamPayload⟩
    | .thrown _ =>
      ⟨⟨500, corsHeaders ++ [("Content-Type", "application/json")],
        .json (.obj [("error", .str "Internal Server Error")])⟩,
       step.bodyParsed, step.upstreamCalled, step.upstreamPayload⟩
  else
    ⟨⟨404, corsHeaders, .text "Not Found"⟩, false, false, none⟩

end V2

namespace V1

/-! Embedding of `src/unnamed/part_001` (the basic chat-only variant). -/

def WEBSIM_API_URL : String :=
  "https://websim.com/api/v1/inference/run_chat_completion"

/-- Environment-derived configuration. -/
structure Config where
  projectId : String
  apiKey : Option String

/-- `Object.keys(MODEL_MAPPING)`. -/
def modelKeys : List String := ["websim-chat"]

/-- `MODEL_MAPPING[modelId]`. -/
def MODEL_MAPPING (cfg : Config) (modelId : String) : Option String :=
  if modelId = "websim-chat" then some cfg.projectId else none

/-- `handleModels()`. -/
def handleModels (now : Nat) : HttpResponse :=
  ⟨200, [("Content-Type", "application/json")],
   .json (.obj [("object", .str "list"),
                ("data", .arr (modelKeys.map (modelEntry now)))])⟩

/-- The 200 chat-completion object. -/
def chatSuccessJson (uuid : String) (now : Nat) (model content : String) : Json :=
  .obj [("id", .str ("chatcmpl-" ++ uuid)),
        ("object", .str "chat.completion"),
        ("created", .num now),
        ("model", .str model),
        ("choices", .arr [.obj [("index", .num 0),
                                ("message", .obj [("role", .str "assistant"),
                                                  ("content", .str content)]),
                                ("finish_reason", .str "stop")]]),
        ("usage", .obj [("prompt_tokens", .null),
                        ("completion_tokens", .null),
                        ("total_tokens", .null)])]

/-- `handleChatCompletions(req)`.  The `try` covers the `fetch` onward; its
`catch` returns the bare 500.  `websimResponse.content.trim()` is unguarded, so
an upstream success without `content` throws a TypeError into that `catch`. -/
def handleChatCompletions (cfg : Config) (req : Request)
    (upstream : UpstreamResponse) (now : Nat) (uuid : String) : HandlerResult :=
  if authorized cfg.apiKey req.authHeader then
    match req.body with
    | none =>
      ⟨⟨400, [], .text "Invalid JSON body"⟩, true, false, none⟩
    | some r =>
      match MODEL_MAPPING cfg r.model with
      | none =>
        ⟨⟨404, [], .json (.obj [("error", .str ("Model not found: " ++ r.model))])⟩,
         true, false, none⟩
      | some projectId =>
        let websimPayload : Json :=
          .obj [("project_id", .str projectId), ("messages", r.messages)]
        if upstream.ok then
          match upstream.body with
          | .notJson =>
            ⟨⟨500, [], .text "Internal Server Error"⟩, true, true, some websimPayload⟩
          | .json uj =>
            match uj.content with
            | none =>
              -- `.trim()` of `undefined` throws; caught by the local catch.
              ⟨⟨500, [], .text "Internal Server Error"⟩, true, true, some websimPayload⟩
            | some s =>
              ⟨⟨200, [("Content-Type", "application/json"),
                      ("Access-Control-Allow-Origin", "*")],
                .json (chatSuccessJson uuid now r.model (jsTrim s))⟩,
               true, true, some websimPayload⟩
        else
          ⟨⟨upstream.status, [],
            .text ("Upstream API error: " ++ upstream.statusText)⟩,
           true, true, some websimPayload⟩
  else
    ⟨⟨401, [], .text "Unauthorized"⟩, false, false, none⟩

/-- The top-level `handler(req)`. -/
def handler (cfg : Config) (req : Request) (upstream : UpstreamResponse)
    (now : Nat) (uuid : String) : HandlerResult :=
  if req.method = "OPTIONS" then
    ⟨⟨204, corsPreflightHeaders, .empty⟩, false, false, none⟩
  else if req.path = "/v1/models" then
    ⟨handleModels now, false, false, none⟩
  else if req.path = "/v1/chat/completions" then
    handleChatCompletions cfg req upstream now uuid
  else
    ⟨⟨404, [], .text "Not Found"⟩, false, false, none⟩

end V1

/-! Claim theorems. -/

/-- C1: in the streaming variant, every chat request with `stream === true` that
succeeds against the upstream gets a `text/event-stream` response with
`Cache-Control: no-cache` and `Connection: keep-alive`, whose body is exactly
three SSE frames, each `data: `-prefixed and blank-line-suffixed: (a) a
`chat.completion.chunk` whose `delta.content` is the entire trimmed content with
`finish_reason` null, (b) a terminal chunk with empty `delta` and
`finish_reason` "stop" sharing the first chunk's `id`/`created`/`model`, and
(c) the literal `data: [DONE]` frame, after which the stream is closed. -/
theorem c1_streaming_three_sse_frames
    (cfg : V2.Config) (auth : Option String) (r : ReqJson)
    (up : UpstreamResponse) (now : Nat) (uuid : String)
    (pid s : String) (uj : UpstreamJson)
    (hauth : authorized cfg.apiKey auth = true)
    (hmodel : V2.MODEL_MAPPING cfg r.model = some pid)
    (hok : up.ok = true)
    (hbody : up.body = .json uj)
    (hcontent : uj.content = some s)
    (hstream : r.stream = some true) :
    (V2.handler cfg ⟨"POST", "/v1/chat/completions", auth, some r⟩ up now uuid).response =
      ⟨200,
       [("Access-Control-Allow-Origin", "*"),
        ("Content-Type", "text/event-stream"),
        ("Cache-Control", "no-cache"),
        ("Connection", "keep-alive")],
       .sse (V2.sseFrames ("chatcmpl-" ++ uuid) now r.model (jsTrim s)) true⟩
    ∧ V2.sseFrames ("chatcmpl-" ++ uuid) now r.model (jsTrim s) =
        ["data: " ++ (V2.streamChunk ("chatcmpl-" ++ uuid) now r.model (jsTrim s)).render ++ "\n\n",
         "data: " ++ (V2.finalChunk ("chatcmpl-" ++ uuid) now r.model).render ++ "\n\n",
         "data: [DONE]\n\n"]
    ∧ (V2.streamChunk ("chatcmpl-" ++ uuid) now r.model (jsTrim s)).getField "object"
        = some (.str "chat.completion.chunk")
    ∧ (V2.streamChunk ("chatcmpl-" ++ uuid) now r.model (jsTrim s)).getField "choices"
        = some (.arr [.obj [("index", .num 0),
                            ("delta", .obj [("content", .str (jsTrim s))]),
                            ("finish_reason", .null)]])
    ∧ (V2.finalChunk ("chatcmpl-" ++ uuid) now r.model).getField "choices"
        = some (.arr [.obj [("index", .num 0),
                            ("delta", .obj []),
                            ("finish_reason", .str "stop")]])
    ∧ (V2.finalChunk ("chatcmpl-" ++ uuid) now r.model).getField "id"
        = (V2.streamChunk ("chatcmpl-" ++ uuid) now r.model (jsTrim s)).getField "id"
    ∧ (V2.finalChunk ("chatcmpl-" ++ uuid) now r.model).getField "created"
        = (V2.streamChunk ("chatcmpl-" ++ uuid) now r.model (jsTrim s)).getField "created"
    ∧ (V2.finalChunk ("chatcmpl-" ++ uuid) now r.model).getField "model"
        = (V2.streamChunk ("chatcmpl-" ++ uuid) now r.model (jsTrim s)).getField "model" := by
  refine ⟨?_, rfl, rfl, rfl, rfl, rfl, rfl, rfl⟩
  simp [V2.handler, V2.handleChatCompletions, V2.corsHeaders,
        hauth, hmodel, hok, hbody, hcontent, hstream]

/-- Witness for C1 at a concrete request/upstream pair. -/
theorem c1_streaming_three_sse_frames_witness :
    (V2.handler ⟨"pid", none⟩
        ⟨"POST", "/v1/chat/completions", none,
         some ⟨"websim-chat", Json.arr [], some true, none, none⟩⟩
        ⟨200, "OK", .json ⟨some "  Hello  ", none⟩⟩ 111 "u0").response =
      ⟨200,
       [("Access-Control-Allow-Origin", "*"),
        ("Content-Type", "text/event-stream"),
        ("Cache-Control", "no-cache"),
        ("Connection", "keep-alive")],
       .sse (V2.sseFrames "chatcmpl-u0" 111 "websim-chat" (jsTrim "  Hello  ")) true⟩
    ∧ V2.sseFrames "chatcmpl-u0" 111 "websim-chat" (jsTrim "  Hello  ") =
        ["data: " ++ (V2.streamChunk "chatcmpl-u0" 111 "websim-chat" (jsTrim "  Hello  ")).render ++ "\n\n",
         "data: " ++ (V2.finalChunk "chatcmpl-u0" 111 "websim-chat").render ++ "\n\n",
         "data: [DONE]\n\n"]
    ∧ (V2.streamChunk "chatcmpl-u0" 111 "websim-chat" (jsTrim "  Hello  ")).getField "object"
        = some (.str "chat.completion.chunk")
    ∧ (V2.streamChunk "chatcmpl-u0" 111 "websim-chat" (jsTrim "  Hello  ")).getField "choices"
        = some (.arr [.obj [("index", .num 0),
                            ("delta", .obj [("content", .str (jsTrim "  Hello  "))]),
                            ("finish_reason", .null)]])
    ∧ (V2.finalChunk "chatcmpl-u0" 111 "websim-chat").getField "choices"
        = some (.arr [.obj [("index", .num 0),
                            ("delta", .obj []),
                            ("finish_reason", .str "stop")]])
    ∧ (V2.finalChunk "chatcmpl-u0" 111 "websim-chat").getField "id"
        = (V2.streamChunk "chatcmpl-u0" 111 "websim-chat" (jsTrim "  Hello  ")).getField "id"
    ∧ (V2.finalChunk "chatcmpl-u0" 111 "websim-chat").getField "created"
        = (V2.streamChunk "chatcmpl-u0" 111 "websim-chat" (jsTrim "  Hello  ")).getField "created"
    ∧ (V2.finalChunk "chatcmpl-u0" 111 "websim-chat").getField "model"
        = (V2.streamChunk "chatcmpl-u0" 111 "websim-chat" (jsTrim "  Hello  ")).getField "model" :=
  c1_streaming_three_sse_frames ⟨"pid", none⟩ none
    ⟨"websim-chat", Json.arr [], some true, none, none⟩
    ⟨200, "OK", .json ⟨some "  Hello  ", none⟩⟩ 111 "u0" "pid" "  Hello  "
    ⟨some "  Hello  ", none⟩ rfl rfl rfl rfl rfl rfl

/-- C2 counterexample: in `src/main.ts`, an upstream success reply *without* a
`content` field is not treated as the empty string — `websimResponse.content.trim()`
throws, and the handler answers 500, not a 200 with empty content. -/
theorem c2_absent_content_500_counterexample :
    (Main.handler ⟨"cpid", "ipid", none⟩
        ⟨"POST", "/v1/chat/completions", none,
         some ⟨"websim-chat", Json.arr [], none, none, none⟩⟩
        ⟨200, "OK", .json ⟨none, none⟩⟩ 7 "u0").response.status = 500
    ∧ (Main.handler ⟨"cpid", "ipid", none⟩
        ⟨"POST", "/v1/chat/completions", none,
         some ⟨"websim-chat", Json.arr [], none, none, none⟩⟩
        ⟨200, "OK", .json ⟨none, none⟩⟩ 7 "u0").response.status ≠ 200
    ∧ (Main.handler ⟨"cpid", "ipid", none⟩
        ⟨"POST", "/v1/chat/completions", none,
         some ⟨"websim-chat", Json.arr [], none, none, none⟩⟩
        ⟨200, "OK", .json ⟨none, none⟩⟩ 7 "u0").response.body =
      .json (.obj [("error", .str Main.trimOfUndefinedMsg)]) :=
  ⟨rfl, by decide, rfl⟩

/-- C2 (amended): for every non-streaming chat request that succeeds against the
upstream, `choices[0].message.content` is the upstream content with leading and
trailing whitespace trimmed and `finish_reason` is "stop" (shown for `main.ts`
and the streaming variant); but only the streaming variant (`part_000`) treats
an absent `content` as the empty string — in `main.ts` an absent `content`
makes the unguarded `.trim()` throw and the handler answers 500. -/
theorem c2_trimmed_content_and_absent_content :
    (∀ (cfg : Main.Config) (auth : Option String) (r : ReqJson)
       (up : UpstreamResponse) (now : Nat) (uuid s : String) (uj : UpstreamJson),
       authorized cfg.apiKey auth = true →
       r.model = "websim-chat" →
       up.ok = true → up.body = .json uj → uj.content = some s →
       (Main.handler cfg ⟨"POST", "/v1/chat/completions", auth, some r⟩ up now uuid).response.status = 200
       ∧ (Main.handler cfg ⟨"POST", "/v1/chat/completions", auth, some r⟩ up now uuid).response.body
           = .json (Main.chatSuccessJson uuid now r.model (jsTrim s))
       ∧ (Main.chatSuccessJson uuid now r.model (jsTrim s)).getField "choices"
           = some (.arr [.obj [("index", .num 0),
                               ("message", .obj [("role", .str "assistant"),
                                                 ("content", .str (jsTrim s))]),
                               ("finish_reason", .str "stop")]]))
    ∧ (∀ (cfg : V2.Config) (auth : Option String) (r : ReqJson)
         (up : UpstreamResponse) (now : Nat) (uuid : String) (uj : UpstreamJson),
         authorized cfg.apiKey auth = true →
         r.model = "websim-chat" →
         ¬ r.stream = some true →
         up.ok = true → up.body = .json uj → uj.content = none →
         (V2.handler cfg ⟨"POST", "/v1/chat/completions", auth, some r⟩ up now uuid).response.status = 200
         ∧ (V2.handler cfg ⟨"POST", "/v1/chat/completions", auth, some r⟩ up now uuid).response.body
             = .json (V2.chatSuccessJson uuid now r.model ""))
    ∧ (∀ (cfg : Main.Config) (auth : Option String) (r : ReqJson)
         (up : UpstreamResponse) (now : Nat) (uuid : String) (uj : UpstreamJson),
         authorized cfg.apiKey auth = true →
         r.model = "websim-chat" →
         up.ok = true → up.body = .json uj → uj.content = none →
         (Main.handler cfg ⟨"POST", "/v1/chat/completions", auth, some r⟩ up now uuid).response.status = 500
         ∧ (Main.handler cfg ⟨"POST", "/v1/chat/completions", auth, some r⟩ up now uuid).response.body
             = .json (.obj [("error", .str Main.trimOfUndefinedMsg)])) := by
  refine ⟨?_, ?_, ?_⟩
  · intro cfg auth r up now uuid s uj hauth hm hok hbody hcontent
    refine ⟨?_, ?_, rfl⟩ <;>
      simp [Main.handler, Main.handleChatCompletions, Main.MODEL_MAPPING,
            hauth, hm, hok, hbody, hcontent]
  · intro cfg auth r up now uuid uj hauth hm hstream hok hbody hcontent
    refine ⟨?_, ?_⟩ <;>
      simp [V2.handler, V2.handleChatCompletions, V2.MODEL_MAPPING, V2.corsHeaders,
            hauth, hm, hstream, hok, hbody, hcontent]
  · intro cfg auth r up now uuid uj hauth hm hok hbody hcontent
    refine ⟨?_, ?_⟩ <;>
      simp [Main.handler, Main.handleChatCompletions, Main.MODEL_MAPPING,
            Main.err500, Main.errMessage, Main.trimOfUndefinedMsg,
            hauth, hm, hok, hbody, hcontent]

/-- Witness for C2's amended theorem at concrete inputs (`"  Hello  "` trims to
`"Hello"`; an absent `content` gives 200/"" in the streaming variant and 500 in
`main.ts`). -/
theorem c2_trimmed_content_and_absent_content_witness :
    ((Main.handler ⟨"cpid", "ipid", none⟩
        ⟨"POST", "/v1/chat/completions", none,
         some ⟨"websim-chat", Json.arr [], none, none, none⟩⟩
        ⟨200, "OK", .json ⟨some "  Hello  ", none⟩⟩ 7 "u0").response.status = 200
     ∧ (Main.handler ⟨"cpid", "ipid", none⟩
        ⟨"POST", "/v1/chat/completions", none,
         some ⟨"websim-chat", Json.arr [], none, none, none⟩⟩
        ⟨200, "OK", .json ⟨some "  Hello  ", none⟩⟩ 7 "u0").response.body
         = .json (Main.chatSuccessJson "u0" 7 "websim-chat" (jsTrim "  Hello  "))
     ∧ (Main.chatSuccessJson "u0" 7 "websim-chat" (jsTrim "  Hello  ")).getField "choices"
         = some (.arr [.obj [("index", .num 0),
                             ("message", .obj [("role", .str "assistant"),
                                               ("content", .str (jsTrim "  Hello  "))]),
                             ("finish_reason", .str "stop")]]))
    ∧ ((V2.handler ⟨"pid", none⟩
        ⟨"POST", "/v1/chat/completions", none,
         some ⟨"websim-chat", Json.arr [], none, none, none⟩⟩
        ⟨200, "OK", .json ⟨none, none⟩⟩ 7 "u0").response.status = 200
       ∧ (V2.handler ⟨"pid", none⟩
        ⟨"POST", "/v1/chat/completions", none,
         some ⟨"websim-chat", Json.arr [], none, none, none⟩⟩
        ⟨200, "OK", .json ⟨none, none⟩⟩ 7 "u0").response.body
         = .json (V2.chatSuccessJson "u0" 7 "websim-chat" "")) :=
  ⟨(c2_trimmed_content_and_absent_content.1 ⟨"cpid", "ipid", none⟩ none
      ⟨"websim-chat", Json.arr [], none, none, none⟩
      ⟨200, "OK", .json ⟨some "  Hello  ", none⟩⟩ 7 "u0" "  Hello  "
      ⟨some "  Hello  ", none⟩ rfl rfl rfl rfl rfl),
   (c2_trimmed_content_and_absent_content.2.1 ⟨"pid", none⟩ none
      ⟨"websim-chat", Json.arr [], none, none, none⟩
      ⟨200, "OK", .json ⟨none, none⟩⟩ 7 "u0" ⟨none, none⟩
      rfl rfl (by decide) rfl rfl rfl)⟩

/-- C3: a chat request whose model does not resolve in `MODEL_MAPPING` to a
`chat`-modality entry (in particular any non-key model string) gets a 404 whose
error payload names the unknown model, and the upstream is never called. -/
theorem c3_unknown_chat_model_404
    (cfg : Main.Config) (auth : Option String) (r : ReqJson)
    (up : UpstreamResponse) (now : Nat) (uuid : String)
    (hauth : authorized cfg.apiKey auth = true)
    (hmodel : ∀ mc, Main.MODEL_MAPPING cfg r.model = some mc → mc.type ≠ .chat) :
    (Main.handler cfg ⟨"POST", "/v1/chat/completions", auth, some r⟩ up now uuid).response.status = 404
    ∧ (Main.handler cfg ⟨"POST", "/v1/chat/completions", auth, some r⟩ up now uuid).response.body
        = .json (.obj [("error", .str ("Chat model not found: " ++ r.model))])
    ∧ (Main.handler cfg ⟨"POST", "/v1/chat/completions", auth, some r⟩ up now uuid).upstreamCalled
        = false := by
  rcases h : Main.MODEL_MAPPING cfg r.model with _ | mc
  · refine ⟨?_, ?_, ?_⟩ <;>
      simp [Main.handler, Main.handleChatCompletions, hauth, h]
  · have hne := hmodel mc h
    refine ⟨?_, ?_, ?_⟩ <;>
      simp [Main.handler, Main.handleChatCompletions, hauth, h, hne]

/-- Witness for C3: once with a model string that is no key of the table
(`"unknown-model"`), once with the key of a non-chat entry (`"websim-image"`). -/
theorem c3_unknown_chat_model_404_witness :
    ((Main.handler ⟨"cpid", "ipid", none⟩
        ⟨"POST", "/v1/chat/completions", none,
         some ⟨"unknown-model", Json.arr [], none, none, none⟩⟩
        ⟨200, "OK", .json ⟨some "hi", none⟩⟩ 7 "u0").response.status = 404
     ∧ (Main.handler ⟨"cpid", "ipid", none⟩
        ⟨"POST", "/v1/chat/completions", none,
         some ⟨"unknown-model", Json.arr [], none, none, none⟩⟩
        ⟨200, "OK", .json ⟨some "hi", none⟩⟩ 7 "u0").response.body
         = .json (.obj [("error", .str ("Chat model not found: " ++ "unknown-model"))])
     ∧ (Main.handler ⟨"cpid", "ipid", none⟩
        ⟨"POST", "/v1/chat/completions", none,
         some ⟨"unknown-model", Json.arr [], none, none, none⟩⟩
        ⟨200, "OK", .json ⟨some "hi", none⟩⟩ 7 "u0").upstreamCalled = false)
    ∧ ((Main.handler ⟨"cpid", "ipid", none⟩
        ⟨"POST", "/v1/chat/completions", none,
         some ⟨"websim-image", Json.arr [], none, none, none⟩⟩
        ⟨200, "OK", .json ⟨some "hi", none⟩⟩ 7 "u0").response.status = 404
       ∧ (Main.handler ⟨"cpid", "ipid", none⟩
        ⟨"POST", "/v1/chat/completions", none,
         some ⟨"websim-image", Json.arr [], none, none, none⟩⟩
        ⟨200, "OK", .json ⟨some "hi", none⟩⟩ 7 "u0").response.body
         = .json (.obj [("error", .str ("Chat model not found: " ++ "websim-image"))])
       ∧ (Main.handler ⟨"cpid", "ipid", none⟩
        ⟨"POST", "/v1/chat/completions", none,
         some ⟨"websim-image", Json.arr [], none, none, none⟩⟩
        ⟨200, "OK", .json ⟨some "hi", none⟩⟩ 7 "u0").upstreamCalled = false) :=
  ⟨c3_unknown_chat_model_404 ⟨"cpid", "ipid", none⟩ none
     ⟨"unknown-model", Json.arr [], none, none, none⟩
     ⟨200, "OK", .json ⟨some "hi", none⟩⟩ 7 "u0" rfl
     (by intro mc h; simp [Main.MODEL_MAPPING] at h),
   c3_unknown_chat_model_404 ⟨"cpid", "ipid", none⟩ none
     ⟨"websim-image", Json.arr [], none, none, none⟩
     ⟨200, "OK", .json ⟨some "hi", none⟩⟩ 7 "u0" rfl
     (by intro mc h; simp [Main.MODEL_MAPPING] at h; simp [← h])⟩

/-- C4: with a bearer token configured, a chat or image request whose
`Authorization` header is missing or differs from `"Bearer " + token` gets 401
and the upstream is never called — in all three variants. -/
theorem c4_bad_auth_401_no_upstream :
    (∀ (cfg : Main.Config) (k : String) (auth : Option String)
       (body : Option ReqJson) (up : UpstreamResponse) (now : Nat)
       (uuid p : String),
       cfg.apiKey = some k →
       authorized cfg.apiKey auth = false →
       p = "/v1/chat/completions" ∨ p = "/v1/images/generations" →
       (Main.handler cfg ⟨"POST", p, auth, body⟩ up now uuid).response.status = 401
       ∧ (Main.handler cfg ⟨"POST", p, auth, body⟩ up now uuid).upstreamCalled = false)
    ∧ (∀ (cfg : V2.Config) (k : String) (auth : Option String)
         (body : Option ReqJson) (up : UpstreamResponse) (now : Nat) (uuid : String),
         cfg.apiKey = some k →
         authorized cfg.apiKey auth = false →
         (V2.handler cfg ⟨"POST", "/v1/chat/completions", auth, body⟩ up now uuid).response.status = 401
         ∧ (V2.handler cfg ⟨"POST", "/v1/chat/completions", auth, body⟩ up now uuid).upstreamCalled = false)
    ∧ (∀ (cfg : V1.Config) (k : String) (auth : Option String)
         (body : Option ReqJson) (up : UpstreamResponse) (now : Nat) (uuid : String),
         cfg.apiKey = some k →
         authorized cfg.apiKey auth = false →
         (V1.handler cfg ⟨"POST", "/v1/chat/completions", auth, body⟩ up now uuid).response.status = 401
         ∧ (V1.handler cfg ⟨"POST", "/v1/chat/completions", auth, body⟩ up now uuid).upstreamCalled = false) := by
  refine ⟨?_, ?_, ?_⟩
  · intro cfg k auth body up now uuid p _ hauth _
    constructor <;> simp [Main.handler, hauth]
  · intro cfg k auth body up now uuid _ hauth
    constructor <;> simp [V2.handler, V2.handleChatCompletions, hauth]
  · intro cfg k auth body up now uuid _ hauth
    constructor <;> simp [V1.handler, V1.handleChatCompletions, hauth]

/-- Witness for C4: token `"secret"` configured, wrong header on the chat path
of `main.ts`. -/
theorem c4_bad_auth_401_no_upstream_witness :
    (Main.handler ⟨"cpid", "ipid", some "secret"⟩
        ⟨"POST", "/v1/chat/completions", some "Bearer wrong",
         some ⟨"websim-chat", Json.arr [], none, none, none⟩⟩
        ⟨200, "OK", .json ⟨some "hi", none⟩⟩ 7 "u0").response.status = 401
    ∧ (Main.handler ⟨"cpid", "ipid", some "secret"⟩
        ⟨"POST", "/v1/chat/completions", some "Bearer wrong",
         some ⟨"websim-chat", Json.arr [], none, none, none⟩⟩
        ⟨200, "OK", .json ⟨some "hi", none⟩⟩ 7 "u0").upstreamCalled = false :=
  c4_bad_auth_401_no_upstream.1 ⟨"cpid", "ipid", some "secret"⟩ "secret"
    (some "Bearer wrong") (some ⟨"websim-chat", Json.arr [], none, none, none⟩)
    ⟨200, "OK", .json ⟨some "hi", none⟩⟩ 7 "u0" "/v1/chat/completions"
    rfl (by decide) (Or.inl rfl)

/-- C5: on an upstream non-2xx status, the proxy's response status is never 200:
`main.ts` throws and answers 500, while the v1/v2 variants propagate the
upstream status verbatim — and in every variant an error response is returned
(the v2 chat handler returns rather than throwing to its caller). -/
theorem c5_upstream_error_never_200 :
    (∀ (cfg : Main.Config) (auth : Option String) (r : ReqJson)
       (up : UpstreamResponse) (now : Nat) (uuid : String),
       authorized cfg.apiKey auth = true →
       r.model = "websim-chat" →
       up.ok = false →
       (Main.handler cfg ⟨"POST", "/v1/chat/completions", auth, some r⟩ up now uuid).response.status = 500
       ∧ (Main.handler cfg ⟨"POST", "/v1/chat/completions", auth, some r⟩ up now uuid).response.status ≠ 200)
    ∧ (∀ (cfg : V2.Config) (auth : Option String) (r : ReqJson)
         (up : UpstreamResponse) (now : Nat) (uuid : String),
         authorized cfg.apiKey auth = true →
         r.model = "websim-chat" →
         up.ok = false →
         (V2.handleChatCompletions cfg ⟨"POST", "/v1/chat/completions", auth, some r⟩ up now uuid).outcome
           = .ok ⟨up.status, V2.corsHeaders,
                  .text ("Upstream API error: " ++ up.statusText)⟩
         ∧ (V2.handler cfg ⟨"POST", "/v1/chat/completions", auth, some r⟩ up now uuid).response.status = up.status
         ∧ (V2.handler cfg ⟨"POST", "/v1/chat/completions", auth, some r⟩ up now uuid).response.status ≠ 200)
    ∧ (∀ (cfg : V1.Config) (auth : Option String) (r : ReqJson)
         (up : UpstreamResponse) (now : Nat) (uuid : String),
         authorized cfg.apiKey auth = true →
         r.model = "websim-chat" →
         up.ok = false →
         (V1.handler cfg ⟨"POST", "/v1/chat/completions", auth, some r⟩ up now uuid).response.status = up.status
         ∧ (V1.handler cfg ⟨"POST", "/v1/chat/completions", auth, some r⟩ up now uuid).response.status ≠ 200) := by
  have hstat : ∀ up : UpstreamResponse, up.ok = false → up.status ≠ 200 := by
    intro up h he
    simp [UpstreamResponse.ok, he] at h
  refine ⟨?_, ?_, ?_⟩
  · intro cfg auth r up now uuid hauth hm hok
    constructor <;>
      simp [Main.handler, Main.handleChatCompletions, Main.MODEL_MAPPING,
            Main.err500, hauth, hm, hok]
  · intro cfg auth r up now uuid hauth hm hok
    refine ⟨?_, ?_, ?_⟩ <;>
      simp [V2.handler, V2.handleChatCompletions, V2.MODEL_MAPPING,
            hauth, hm, hok, hstat up hok]
  · intro cfg auth r up now uuid hauth hm hok
    constructor <;>
      simp [V1.handler, V1.handleChatCompletions, V1.MODEL_MAPPING,
            hauth, hm, hok, hstat up hok]

/-- Witness for C5: the stubbed upstream answers 502. -/
theorem c5_upstream_error_never_200_witness :
    ((Main.handler ⟨"cpid", "ipid", none⟩
        ⟨"POST", "/v1/chat/completions", none,
         some ⟨"websim-chat", Json.arr [], none, none, none⟩⟩
        ⟨502, "Bad Gateway", .notJson⟩ 7 "u0").response.status = 500
     ∧ (Main.handler ⟨"cpid", "ipid", none⟩
        ⟨"POST", "/v1/chat/completions", none,
         some ⟨"websim-chat", Json.arr [], none, none, none⟩⟩
        ⟨502, "Bad Gateway", .notJson⟩ 7 "u0").response.status ≠ 200)
    ∧ ((V2.handler ⟨"pid", none⟩
        ⟨"POST", "/v1/chat/completions", none,
         some ⟨"websim-chat", Json.arr [], none, none, none⟩⟩
        ⟨502, "Bad Gateway", .notJson⟩ 7 "u0").response.status = 502
       ∧ (V2.handler ⟨"pid", none⟩
        ⟨"POST", "/v1/chat/completions", none,
         some ⟨"websim-chat", Json.arr [], none, none, none⟩⟩
        ⟨502, "Bad Gateway", .notJson⟩ 7 "u0").response.status ≠ 200) :=
  ⟨c5_upstream_error_never_200.1 ⟨"cpid", "ipid", none⟩ none
     ⟨"websim-chat", Json.arr [], none, none, none⟩
     ⟨502, "Bad Gateway", .notJson⟩ 7 "u0" rfl rfl rfl,
   ((c5_upstream_error_never_200.2.1 ⟨"pid", none⟩ none
       ⟨"websim-chat", Json.arr [], none, none, none⟩
       ⟨502, "Bad Gateway", .notJson⟩ 7 "u0" rfl rfl rfl).2)⟩

/-- C6: every `OPTIONS` request, on any path and with any (even missing) token,
is answered 204 with the three CORS preflight headers, before authentication —
in all three variants. -/
theorem c6_options_preflight_204 :
    (∀ (cfg : Main.Config) (req : Request) (up : UpstreamResponse)
       (now : Nat) (uuid : String),
       req.method = "OPTIONS" →
       Main.handler cfg req up now uuid =
         ⟨⟨204, corsPreflightHeaders, .empty⟩, false, false, none⟩)
    ∧ (∀ (cfg : V2.Config) (req : Request) (up : UpstreamResponse)
         (now : Nat) (uuid : String),
         req.method = "OPTIONS" →
         V2.handler cfg req up now uuid =
           ⟨⟨204, corsPreflightHeaders, .empty⟩, false, false, none⟩)
    ∧ (∀ (cfg : V1.Config) (req : Request) (up : UpstreamResponse)
         (now : Nat) (uuid : String),
         req.method = "OPTIONS" →
         V1.handler cfg req up now uuid =
           ⟨⟨204, corsPreflightHeaders, .empty⟩, false, false, none⟩) := by
  refine ⟨?_, ?_, ?_⟩ <;> intro cfg req up now uuid h
  · simp [Main.handler, h]
  · simp [V2.handler, h]
  · simp [V1.handler, h]

/-- Witness for C6: `OPTIONS` on an arbitrary path with a token configured and
no `Authorization` header still gets the 204 preflight. -/
theorem c6_options_preflight_204_witness :
    Main.handler ⟨"cpid", "ipid", some "secret"⟩
        ⟨"OPTIONS", "/v1/chat/completions", none, none⟩
        ⟨200, "OK", .json ⟨some "hi", none⟩⟩ 7 "u0" =
      ⟨⟨204, corsPreflightHeaders, .empty⟩, false, false, none⟩ :=
  c6_options_preflight_204.1 ⟨"cpid", "ipid", some "secret"⟩
    ⟨"OPTIONS", "/v1/chat/completions", none, none⟩
    ⟨200, "OK", .json ⟨some "hi", none⟩⟩ 7 "u0" rfl

/-- C7: the image route derives `aspect_ratio` from `size` by the fixed table
(`1792x1024 ↦ 16:9`, `1024x1792 ↦ 9:16`, `1024x1024 ↦ 1:1`), every other or
absent `size` falls back to `1:1` without being an error (the upstream call is
still made), and the forwarded payload is exactly
`{project_id, prompt, aspect_ratio}`. -/
theorem c7_image_aspect_ratio_table
    (cfg : Main.Config) (auth : Option String) (r : ReqJson)
    (up : UpstreamResponse) (now : Nat) (uuid p : String)
    (hauth : authorized cfg.apiKey auth = true)
    (hmodel : r.model = "websim-image")
    (hprompt : r.prompt = some p) :
    (Main.handler cfg ⟨"POST", "/v1/images/generations", auth, some r⟩ up now uuid).upstreamCalled = true
    ∧ (Main.handler cfg ⟨"POST", "/v1/images/generations", auth, some r⟩ up now uuid).upstreamPayload
        = some (.obj [("project_id", .str cfg.imageProjectId),
                      ("prompt", .str p),
                      ("aspect_ratio", .str (Main.aspectRatioOf r.size))])
    ∧ Main.aspectRatioOf (some "1792x1024") = "16:9"
    ∧ Main.aspectRatioOf (some "1024x1792") = "9:16"
    ∧ Main.aspectRatioOf (some "1024x1024") = "1:1"
    ∧ Main.aspectRatioOf none = "1:1"
    ∧ (∀ sz : String, sz ≠ "1792x1024" → sz ≠ "1024x1792" →
         Main.aspectRatioOf (some sz) = "1:1") := by
  refine ⟨?_, ?_, rfl, rfl, rfl, rfl, ?_⟩
  · simp [Main.handler, Main.handleImageGeneration, Main.MODEL_MAPPING,
          hauth, hmodel]
    split
    · split <;> rfl
    · rfl
  · simp [Main.handler, Main.handleImageGeneration, Main.MODEL_MAPPING,
          Main.imagePayload, hauth, hmodel, hprompt]
    split
    · split <;> rfl
    · rfl
  · intro sz h1 h2
    unfold Main.aspectRatioOf
    split
    · rename_i h; exact absurd (Option.some.inj h) h1
    · rename_i h; exact absurd (Option.some.inj h) h2
    · rfl

/-- Witness for C7: a request with `size: "1792x1024"` forwards `16:9`, and an
unrecognized `size` maps to `1:1`. -/
theorem c7_image_aspect_ratio_table_witness :
    (Main.handler ⟨"cpid", "ipid", none⟩
        ⟨"POST", "/v1/images/generations", none,
         some ⟨"websim-image", Json.arr [], none, some "a cat", some "1792x1024"⟩⟩
        ⟨200, "OK", .json ⟨none, some "http://img"⟩⟩ 7 "u0").upstreamCalled = true
    ∧ (Main.handler ⟨"cpid", "ipid", none⟩
        ⟨"POST", "/v1/images/generations", none,
         some ⟨"websim-image", Json.arr [], none, some "a cat", some "1792x1024"⟩⟩
        ⟨200, "OK", .json ⟨none, some "http://img"⟩⟩ 7 "u0").upstreamPayload
        = some (.obj [("project_id", .str "ipid"),
                      ("prompt", .str "a cat"),
                      ("aspect_ratio", .str (Main.aspectRatioOf (some "1792x1024")))])
    ∧ Main.aspectRatioOf (some "1792x1024") = "16:9"
    ∧ Main.aspectRatioOf (some "1024x1792") = "9:16"
    ∧ Main.aspectRatioOf (some "1024x1024") = "1:1"
    ∧ Main.aspectRatioOf none = "1:1"
    ∧ (∀ sz : String, sz ≠ "1792x1024" → sz ≠ "1024x1792" →
         Main.aspectRatioOf (some sz) = "1:1") :=
  c7_image_aspect_ratio_table ⟨"cpid", "ipid", none⟩ none
    ⟨"websim-image", Json.arr [], none, some "a cat", some "1792x1024"⟩
    ⟨200, "OK", .json ⟨none, some "http://img"⟩⟩ 7 "u0" "a cat"
    rfl rfl rfl

/-- C8 counterexample: in `src/main.ts` the auth gate runs before routing, so
with a bearer token configured an unauthenticated `GET /v1/models` is answered
401 — the endpoint does require authentication there. -/
theorem c8_models_auth_counterexample :
    (Main.handler ⟨"cpid", "ipid", some "secret"⟩
        ⟨"GET", "/v1/models", none, none⟩
        ⟨200, "OK", .json ⟨none, none⟩⟩ 7 "u0").response.status = 401
    ∧ (Main.handler ⟨"cpid", "ipid", some "secret"⟩
        ⟨"GET", "/v1/models", none, none⟩
        ⟨200, "OK", .json ⟨none, none⟩⟩ 7 "u0").response.status ≠ 200 :=
  ⟨rfl, by decide⟩

/-- C8 (amended): `GET /v1/models` lists each registered public model id exactly
once as `{id, object: "model", created, owned_by: "user"}` with `created` taken
from the clock at call time; it requires no authentication in the v1/v2
variants, but in `main.ts` the handler's auth gate runs before routing, so when
a bearer token is configured an unauthenticated request gets 401. -/
theorem c8_models_listing :
    (∀ (cfg : V2.Config) (auth : Option String) (body : Option ReqJson)
       (up : UpstreamResponse) (now : Nat) (uuid : String),
       (V2.handler cfg ⟨"GET", "/v1/models", auth, body⟩ up now uuid).response.status = 200
       ∧ (V2.handler cfg ⟨"GET", "/v1/models", auth, body⟩ up now uuid).response.body
           = .json (.obj [("object", .str "list"),
                          ("data", .arr [modelEntry now "websim-chat"])]))
    ∧ (∀ (cfg : V1.Config) (auth : Option String) (body : Option ReqJson)
         (up : UpstreamResponse) (now : Nat) (uuid : String),
         (V1.handler cfg ⟨"GET", "/v1/models", auth, body⟩ up now uuid).response.status = 200
         ∧ (V1.handler cfg ⟨"GET", "/v1/models", auth, body⟩ up now uuid).response.body
             = .json (.obj [("object", .str "list"),
                            ("data", .arr [modelEntry now "websim-chat"])]))
    ∧ (∀ (cfg : Main.Config) (auth : Option String) (up : UpstreamResponse)
         (now : Nat) (uuid : String),
         authorized cfg.apiKey auth = true →
         (Main.handler cfg ⟨"GET", "/v1/models", auth, none⟩ up now uuid).response.status = 200
         ∧ (Main.handler cfg ⟨"GET", "/v1/models", auth, none⟩ up now uuid).response.body
             = .json (.obj [("object", .str "list"),
                            ("data", .arr [modelEntry now "websim-chat",
                                           modelEntry now "websim-image"])]))
    ∧ (∀ (cfg : Main.Config) (k : String) (auth : Option String)
         (up : UpstreamResponse) (now : Nat) (uuid : String),
         cfg.apiKey = some k →
         authorized cfg.apiKey auth = false →
         (Main.handler cfg ⟨"GET", "/v1/models", auth, none⟩ up now uuid).response.status = 401)
    ∧ Main.modelKeys.Nodup ∧ V2.modelKeys.Nodup ∧ V1.modelKeys.Nodup
    ∧ (∀ (now : Nat) (id : String),
         modelEntry now id = .obj [("id", .str id), ("object", .str "model"),
                                   ("created", .num now), ("owned_by", .str "user")]) := by
  refine ⟨?_, ?_, ?_, ?_, by decide, by decide, by decide, fun _ _ => rfl⟩
  · intro cfg auth body up now uuid
    constructor <;>
      simp [V2.handler, V2.handleModels, V2.modelKeys, V2.corsHeaders]
  · intro cfg auth body up now uuid
    constructor <;> simp [V1.handler, V1.handleModels, V1.modelKeys]
  · intro cfg auth up now uuid hauth
    constructor <;> simp [Main.handler, Main.handleModels, Main.modelKeys, hauth]
  · intro cfg k auth up now uuid _ hauth
    simp [Main.handler, hauth]

/-- Witness for C8's amended theorem at concrete inputs. -/
theorem c8_models_listing_witness :
    ((V2.handler ⟨"pid", some "secret"⟩ ⟨"GET", "/v1/models", none, none⟩
        ⟨200, "OK", .json ⟨none, none⟩⟩ 42 "u0").response.status = 200
     ∧ (V2.handler ⟨"pid", some "secret"⟩ ⟨"GET", "/v1/models", none, none⟩
        ⟨200, "OK", .json ⟨none, none⟩⟩ 42 "u0").response.body
         = .json (.obj [("object", .str "list"),
                        ("data", .arr [modelEntry 42 "websim-chat"])]))
    ∧ ((Main.handler ⟨"cpid", "ipid", none⟩ ⟨"GET", "/v1/models", none, none⟩
        ⟨200, "OK", .json ⟨none, none⟩⟩ 42 "u0").response.status = 200
       ∧ (Main.handler ⟨"cpid", "ipid", none⟩ ⟨"GET", "/v1/models", none, none⟩
        ⟨200, "OK", .json ⟨none, none⟩⟩ 42 "u0").response.body
         = .json (.obj [("object", .str "list"),
                        ("data", .arr [modelEntry 42 "websim-chat",
                                       modelEntry 42 "websim-image"])])) :=
  ⟨c8_models_listing.1 ⟨"pid", some "secret"⟩ none none
     ⟨200, "OK", .json ⟨none, none⟩⟩ 42 "u0",
   c8_models_listing.2.2.1 ⟨"cpid", "ipid", none⟩ none
     ⟨200, "OK", .json ⟨none, none⟩⟩ 42 "u0" rfl⟩

/-- C9 counterexample: in `src/main.ts` the 401 Unauthorized response carries no
`Access-Control-Allow-Origin` header at all — error responses there do not
carry CORS headers. -/
theorem c9_error_cors_counterexample :
    (Main.handler ⟨"cpid", "ipid", some "secret"⟩
        ⟨"POST", "/v1/chat/completions", none,
         some ⟨"websim-chat", Json.arr [], none, none, none⟩⟩
        ⟨200, "OK", .json ⟨some "hi", none⟩⟩ 7 "u0").response.status = 401
    ∧ (Main.handler ⟨"cpid", "ipid", some "secret"⟩
        ⟨"POST", "/v1/chat/completions", none,
         some ⟨"websim-chat", Json.arr [], none, none, none⟩⟩
        ⟨200, "OK", .json ⟨some "hi", none⟩⟩ 7 "u0").response.getHeader
          "Access-Control-Allow-Origin" = none :=
  ⟨rfl, rfl⟩

/-- C9 (amended): only the v2 streaming variant attaches CORS headers to every
error response (401, 400, 404 unknown-model, 404 unknown-route, propagated
upstream error, and the 500 catch-all all carry
`Access-Control-Allow-Origin: *`); in `main.ts` the 401 (and the other error
responses) carry no CORS header. -/
theorem c9_error_responses_cors :
    (∀ (cfg : V2.Config) (k : String) (auth : Option String)
       (body : Option ReqJson) (up : UpstreamResponse) (now : Nat) (uuid : String),
       cfg.apiKey = some k →
       authorized cfg.apiKey auth = false →
       (V2.handler cfg ⟨"POST", "/v1/chat/completions", auth, body⟩ up now uuid).response.status = 401
       ∧ (V2.handler cfg ⟨"POST", "/v1/chat/completions", auth, body⟩ up now uuid).response.getHeader
           "Access-Control-Allow-Origin" = some "*")
    ∧ (∀ (cfg : V2.Config) (auth : Option String) (up : UpstreamResponse)
         (now : Nat) (uuid : String),
         authorized cfg.apiKey auth = true →
         (V2.handler cfg ⟨"POST", "/v1/chat/completions", auth, none⟩ up now uuid).response.status = 400
         ∧ (V2.handler cfg ⟨"POST", "/v1/chat/completions", auth, none⟩ up now uuid).response.getHeader
             "Access-Control-Allow-Origin" = some "*")
    ∧ (∀ (cfg : V2.Config) (auth : Option String) (r : ReqJson)
         (up : UpstreamResponse) (now : Nat) (uuid : String),
         authorized cfg.apiKey auth = true →
         V2.MODEL_MAPPING cfg r.model = none →
         (V2.handler cfg ⟨"POST", "/v1/chat/completions", auth, some r⟩ up now uuid).response.status = 404
         ∧ (V2.handler cfg ⟨"POST", "/v1/chat/completions", auth, some r⟩ up now uuid).response.getHeader
             "Access-Control-Allow-Origin" = some "*")
    ∧ (∀ (cfg : V2.Config) (auth : Option String) (r : ReqJson)
         (up : UpstreamResponse) (now : Nat) (uuid : String),
         authorized cfg.apiKey auth = true →
         r.model = "websim-chat" →
         up.ok = false →
         (V2.handler cfg ⟨"POST", "/v1/chat/completions", auth, some r⟩ up now uuid).response.status = up.status
         ∧ (V2.handler cfg ⟨"POST", "/v1/chat/completions", auth, some r⟩ up now uuid).response.getHeader
             "Access-Control-Allow-Origin" = some "*")
    ∧ (∀ (cfg : V2.Config) (auth : Option String) (r : ReqJson)
         (up : UpstreamResponse) (now : Nat) (uuid : String),
         authorized cfg.apiKey auth = true →
         r.model = "websim-chat" →
         up.ok = true →
         up.body = .notJson →
         (V2.handler cfg ⟨"POST", "/v1/chat/completions", auth, some r⟩ up now uuid).response.status = 500
         ∧ (V2.handler cfg ⟨"POST", "/v1/chat/completions", auth, some r⟩ up now uuid).response.getHeader
             "Access-Control-Allow-Origin" = some "*")
    ∧ (∀ (cfg : V2.Config) (req : Request) (up : UpstreamResponse)
         (now : Nat) (uuid : String),
         req.method ≠ "OPTIONS" →
         req.path ≠ "/v1/models" →
         req.path ≠ "/v1/chat/completions" →
         (V2.handler cfg req up now uuid).response.status = 404
         ∧ (V2.handler cfg req up now uuid).response.getHeader
             "Access-Control-Allow-Origin" = some "*")
    ∧ (∀ (cfg : Main.Config) (k : String) (auth : Option String)
         (body : Option ReqJson) (up : UpstreamResponse) (now : Nat) (uuid : String),
         cfg.apiKey = some k →
         authorized cfg.apiKey auth = false →
         (Main.handler cfg ⟨"POST", "/v1/chat/completions", auth, body⟩ up now uuid).response.status = 401
         ∧ (Main.handler cfg ⟨"POST", "/v1/chat/completions", auth, body⟩ up now uuid).response.getHeader
             "Access-Control-Allow-Origin" = none) := by
  refine ⟨?_, ?_, ?_, ?_, ?_, ?_, ?_⟩
  · intro cfg k auth body up now uuid _ hauth
    constructor <;>
      simp [V2.handler, V2.handleChatCompletions, V2.corsHeaders,
            HttpResponse.getHeader, hauth]
  · intro cfg auth up now uuid hauth
    constructor <;>
      simp [V2.handler, V2.handleChatCompletions, V2.corsHeaders,
            HttpResponse.getHeader, hauth]
  · intro cfg auth r up now uuid hauth hmodel
    constructor <;>
      simp [V2.handler, V2.handleChatCompletions, V2.corsHeaders,
            HttpResponse.getHeader, hauth, hmodel]
  · intro cfg auth r up now uuid hauth hm hok
    constructor <;>
      simp [V2.handler, V2.handleChatCompletions, V2.MODEL_MAPPING, V2.corsHeaders,
            HttpResponse.getHeader, hauth, hm, hok]
  · intro cfg auth r up now uuid hauth hm hok hbody
    constructor <;>
      simp [V2.handler, V2.handleChatCompletions, V2.MODEL_MAPPING, V2.corsHeaders,
            HttpResponse.getHeader, hauth, hm, hok, hbody]
  · intro cfg req up now uuid hm hp1 hp2
    constructor <;>
      simp [V2.handler, V2.corsHeaders, HttpResponse.getHeader, hm, hp1, hp2]
  · intro cfg k auth body up now uuid _ hauth
    constructor <;>
      simp [Main.handler, HttpResponse.getHeader, hauth]

/-- Witness for C9's amended theorem: an unauthorized v2 request gets a 401
carrying `Access-Control-Allow-Origin: *`, the same request in `main.ts` a 401
without it. -/
theorem c9_error_responses_cors_witness :
    ((V2.handler ⟨"pid", some "secret"⟩
        ⟨"POST", "/v1/chat/completions", some "Bearer wrong", none⟩
        ⟨200, "OK", .json ⟨none, none⟩⟩ 7 "u0").response.status = 401
     ∧ (V2.handler ⟨"pid", some "secret"⟩
        ⟨"POST", "/v1/chat/completions", some "Bearer wrong", none⟩
        ⟨200, "OK", .json ⟨none, none⟩⟩ 7 "u0").response.getHeader
          "Access-Control-Allow-Origin" = some "*")
    ∧ ((Main.handler ⟨"cpid", "ipid", some "secret"⟩
        ⟨"POST", "/v1/chat/completions", some "Bearer wrong", none⟩
        ⟨200, "OK", .json ⟨none, none⟩⟩ 7 "u0").response.status = 401
       ∧ (Main.handler ⟨"cpid", "ipid", some "secret"⟩
        ⟨"POST", "/v1/chat/completions", some "Bearer wrong", none⟩
        ⟨200, "OK", .json ⟨none, none⟩⟩ 7 "u0").response.getHeader
          "Access-Control-Allow-Origin" = none) :=
  ⟨c9_error_responses_cors.1 ⟨"pid", some "secret"⟩ "secret"
     (some "Bearer wrong") none ⟨200, "OK", .json ⟨none, none⟩⟩ 7 "u0"
     rfl (by decide),
   c9_error_responses_cors.2.2.2.2.2.2 ⟨"cpid", "ipid", some "secret"⟩ "secret"
     (some "Bearer wrong") none ⟨200, "OK", .json ⟨none, none⟩⟩ 7 "u0"
     rfl (by decide)⟩

/-- C10: with a bearer token configured, the auth check runs before the body is
read: a request with a bad `Authorization` header and an unparsable JSON body
gets 401 (never 400) and the body is never parsed — in all three variants. -/
theorem c10_auth_before_body_parse :
    (∀ (cfg : Main.Config) (k : String) (auth : Option String)
       (up : UpstreamResponse) (now : Nat) (uuid p : String),
       cfg.apiKey = some k →
       authorized cfg.apiKey auth = false →
       p = "/v1/chat/completions" ∨ p = "/v1/images/generations" →
       (Main.handler cfg ⟨"POST", p, auth, none⟩ up now uuid).response.status = 401
       ∧ (Main.handler cfg ⟨"POST", p, auth, none⟩ up now uuid).response.status ≠ 400
       ∧ (Main.handler cfg ⟨"POST", p, auth, none⟩ up now uuid).bodyParsed = false)
    ∧ (∀ (cfg : V2.Config) (k : String) (auth : Option String)
         (up : UpstreamResponse) (now : Nat) (uuid : String),
         cfg.apiKey = some k →
         authorized cfg.apiKey auth = false →
         (V2.handler cfg ⟨"POST", "/v1/chat/completions", auth, none⟩ up now uuid).response.status = 401
         ∧ (V2.handler cfg ⟨"POST", "/v1/chat/completions", auth, none⟩ up now uuid).response.status ≠ 400
         ∧ (V2.handler cfg ⟨"POST", "/v1/chat/completions", auth, none⟩ up now uuid).bodyParsed = false)
    ∧ (∀ (cfg : V1.Config) (k : String) (auth : Option String)
         (up : UpstreamResponse) (now : Nat) (uuid : String),
         cfg.apiKey = some k →
         authorized cfg.apiKey auth = false →
         (V1.handler cfg ⟨"POST", "/v1/chat/completions", auth, none⟩ up now uuid).response.status = 401
         ∧ (V1.handler cfg ⟨"POST", "/v1/chat/completions", auth, none⟩ up now uuid).response.status ≠ 400
         ∧ (V1.handler cfg ⟨"POST", "/v1/chat/completions", auth, none⟩ up now uuid).bodyParsed = false) := by
  refine ⟨?_, ?_, ?_⟩
  · intro cfg k auth up now uuid p _ hauth _
    refine ⟨?_, ?_, ?_⟩ <;> simp [Main.handler, hauth]
  · intro cfg k auth up now uuid _ hauth
    refine ⟨?_, ?_, ?_⟩ <;>
      simp [V2.handler, V2.handleChatCompletions, hauth]
  · intro cfg k auth up now uuid _ hauth
    refine ⟨?_, ?_, ?_⟩ <;>
      simp [V1.handler, V1.handleChatCompletions, hauth]

/-- Witness for C10: token configured, missing header, unparsable body, on the
`main.ts` chat path. -/
theorem c10_auth_before_body_parse_witness :
    (Main.handler ⟨"cpid", "ipid", some "secret"⟩
        ⟨"POST", "/v1/chat/completions", none, none⟩
        ⟨200, "OK", .json ⟨some "hi", none⟩⟩ 7 "u0").response.status = 401
    ∧ (Main.handler ⟨"cpid", "ipid", some "secret"⟩
        ⟨"POST", "/v1/chat/completions", none, none⟩
        ⟨200, "OK", .json ⟨some "hi", none⟩⟩ 7 "u0").response.status ≠ 400
    ∧ (Main.handler ⟨"cpid", "ipid", some "secret"⟩
        ⟨"POST", "/v1/chat/completions", none, none⟩
        ⟨200, "OK", .json ⟨some "hi", none⟩⟩ 7 "u0").bodyParsed = false :=
  c10_auth_before_body_parse.1 ⟨"cpid", "ipid", some "secret"⟩ "secret" none
    ⟨200, "OK", .json ⟨some "hi", none⟩⟩ 7 "u0" "/v1/chat/completions"
    rfl rfl (Or.inl rfl)
